import Mathlib

/-!
Verification of the Chipster self-correcting Verilog pipeline
(`src/verilog_generator/main.py`) against its natural-language specification.

The development shallowly embeds the LangGraph pipeline of the source file:
the shared `GraphState` record, the simulator node's success/failure
judgement translated from its post-subprocess logic, the conditional
router `check_simulation_results_node`, the two corrector nodes,
the decomposer's JSON-fallback logic, and the correction loop that the graph
edges induce (corrector → file_writer → simulator → router).

External collaborators (the LLM, the JSON parser, the subprocess calls) are
modelled by their observable outcomes, passed in as parameters: a simulation
attempt is a `SimResult` (normal stdout, a `CalledProcessError`, or a
`TimeoutExpired`), and an LLM response that the node then parses as JSON is
passed in already split into "parsed to this ordered dict" versus "no valid
JSON object found".  Everything the nodes themselves do with those outcomes
is translated from the source.
-/

namespace Chipster

/-! ### String utilities mirroring the Python primitives used by the source

Python's `needle in haystack` (substring test), `str.lower()`, `str.strip()`
and `str.replace(old, new)` are modelled on the underlying character lists so
that every definition evaluates inside the kernel. -/

/-- `charsLeadOf p l` is true when the character list `p` is an initial
segment of `l` (helper for the substring test). -/
def charsLeadOf : List Char → List Char → Bool
  | [], _ => true
  | _ :: _, [] => false
  | a :: as, b :: bs => a == b && charsLeadOf as bs

/-- Python's `needle in haystack` on strings: `needle` occurs contiguously
somewhere in `haystack`. -/
def strContains (haystack needle : String) : Bool :=
  (List.range (haystack.data.length + 1)).any
    (fun i => charsLeadOf needle.data (haystack.data.drop i))

/-- True when the string `m` starts with the string `p`. -/
def strStarts (p m : String) : Bool :=
  charsLeadOf p.data m.data

/-- Python's `str.lower()` (ASCII case folding, which is all the source
feeds it). -/
def strLower (s : String) : String := String.mk (s.data.map Char.toLower)

/-- Python's `str.strip()`: remove leading and trailing whitespace. -/
def pyStrip (s : String) : String :=
  String.mk (((s.data.dropWhile Char.isWhitespace).reverse.dropWhile
    Char.isWhitespace).reverse)

/-- Fuel-indexed worker for `pyReplace`; the fuel is the length of the
input, which suffices because every step consumes at least one character
for the nonempty patterns the source uses. -/
def replaceCharsAux (old new : List Char) : Nat → List Char → List Char
  | 0, l => l
  | _ + 1, [] => []
  | fuel + 1, c :: cs =>
      if charsLeadOf old (c :: cs) && !old.isEmpty then
        new ++ replaceCharsAux old new fuel ((c :: cs).drop old.length)
      else
        c :: replaceCharsAux old new fuel cs

/-- Python's `str.replace(old, new)`: replace every non-overlapping
occurrence, scanning left to right. -/
def pyReplace (s old new : String) : String :=
  String.mk (replaceCharsAux old.data new.data s.data.length s.data)

/-! ### Ordered dictionaries

Python dicts preserve insertion order; the source's `decomposed_files` and
`testbench_code` dicts are modelled as ordered association lists. -/

/-- Ordered-dict lookup. -/
def dictGet (d : List (String × String)) (k : String) : Option String :=
  (d.find? (fun p => p.1 == k)).map Prod.snd

/-- Ordered-dict assignment `d[k] = v`: updates in place when the key
exists (keeping its position), otherwise appends. -/
def dictSet (d : List (String × String)) (k v : String) :
    List (String × String) :=
  if d.any (fun p => p.1 == k) then
    d.map (fun p => if p.1 == k then (k, v) else p)
  else
    d ++ [(k, v)]

/-! ### The regex fallback of the decomposer

`decomposer_node`, when it cannot parse the LLM's JSON, extracts a top
module name from the raw generation with
`re.search(r'module\s+([\w#\(\)]+)', generation)` and then
`.group(1).split('#')[0].strip()`.  This specific search is implemented
directly (ASCII word characters, which is all the generated Verilog
contains). -/

/-- `\w` of the source's regex (ASCII). -/
def isWordChar (c : Char) : Bool := c.isAlphanum || c == '_'

/-- Character class `[\w#\(\)]` of the source's regex. -/
def wordHashChar (c : Char) : Bool :=
  isWordChar c || c == '#' || c == '(' || c == ')'

/-- Try to match `module\s+([\w#\(\)]+)` at the head of `cs`, returning the
captured group. -/
def matchTopAt (cs : List Char) : Option (List Char) :=
  if charsLeadOf "module".data cs then
    let rest := cs.drop 6
    let ws := rest.takeWhile Char.isWhitespace
    if ws.isEmpty then none
    else
      let grp := (rest.drop ws.length).takeWhile wordHashChar
      if grp.isEmpty then none else some grp
  else none

/-- Leftmost match of `module\s+([\w#\(\)]+)`, as `re.search` finds it. -/
def searchTop : List Char → Option (List Char)
  | [] => none
  | c :: cs =>
      match matchTopAt (c :: cs) with
      | some g => some g
      | none => searchTop cs

/-- The decomposer's fallback top-module name:
`match.group(1).split('#')[0].strip()` when the regex matches, and the
literal `"unknown_module"` otherwise. -/
def fallbackTopName (generation : String) : String :=
  match searchTop generation.data with
  | some g => pyStrip (String.mk (g.takeWhile (fun c => c != '#')))
  | none => "unknown_module"

/-! ### The run state

The subset of the source's `GraphState` `TypedDict` that the pipeline logic
reads or writes.  The fields that only feed the UI or the post-success
documentation stages (`documents`, `summary`, `theory`, `waveform_svg`,
`output_path`) are omitted; filesystem persistence is out of scope per the
spec. -/

structure GraphState where
  query : String
  log : List String
  generation : String
  decomposed_files : List (String × String)
  testbench_code : List (String × String)
  simulation_output : String
  error_count : Nat
  top_module_name : String
deriving DecidableEq

/-- `MAX_RETRIES = 10` of the source.  The nodes below take the budget as a
parameter so that the spec's `retryBudget` configurations can be analysed;
the repository instantiates it with this constant. -/
def MAX_RETRIES : Nat := 10

/-- `log_code_changes` of the source: appends exactly one diff entry to the
log, a `🔍 Code changes` entry when the content changed and a
`🔍 No functional changes` entry when it did not (matching
`difflib.unified_diff`, which is empty exactly on equal inputs; the diff
body itself is elided, no claim observes it). -/
def log_code_changes (log : List String) (filename old new : String) :
    List String :=
  if old = new then
    log ++ ["🔍" ++ " No functional changes detected for `" ++ filename ++ "`."]
  else
    log ++ ["🔍" ++ " Code changes for `" ++ filename ++ "`:"]

/-! ### The simulator node -/

/-- Outcome of the `iverilog`/`vvp` subprocess calls of `simulator_node`:
both succeed with the given simulation stdout, one raises
`CalledProcessError` (with the captured stderr/stdout, `isCompile` telling
which command failed), or one raises `TimeoutExpired`. -/
inductive SimResult where
  | ok (stdout : String)
  | procError (isCompile : Bool) (stderr stdout : String)
  | timedOut
deriving DecidableEq

/-- The `simulation_output` string the source builds from each subprocess
outcome (the two `except` arms and the normal path of `simulator_node`). -/
def simOutputOf : SimResult → String
  | SimResult.ok stdout => stdout
  | SimResult.procError isCompile stderr stdout =>
      let msg :=
        if stderr != "" then stderr
        else if stdout != "" then stdout
        else "Unknown simulation error."
      "ERROR during " ++ (if isCompile then "compilation" else "simulation")
        ++ ":\n" ++ msg
  | SimResult.timedOut =>
      "ERROR: Simulation timed out. The testbench may have an infinite loop or is not finishing with `$finish`."

/-- The status log lines `simulator_node` appends for each subprocess
outcome. -/
def simBranchLog : SimResult → List String
  | SimResult.ok _ => ["✅ Compilation successful.", "✅ Simulation finished."]
  | SimResult.procError isCompile _ _ =>
      if isCompile then ["❌ Simulation Failed."]
      else ["✅ Compilation successful.", "❌ Simulation Failed."]
  | SimResult.timedOut => ["❌ ERROR: Simulation timed out."]

/-- `simulator_node`: runs the compilation and simulation (outcome passed in
as `res`), then applies the source's final check: when `"ERROR"` does not
occur in the output the stored `simulation_output` is reset to `""` and
`error_count` is untouched, otherwise the output is kept and `error_count`
is incremented by one.  (Progress log messages that merely echo the
commands are elided.) -/
def simulator_node (res : SimResult) (s : GraphState) : GraphState :=
  if strContains (simOutputOf res) "ERROR" then
    { s with simulation_output := simOutputOf res,
             error_count := s.error_count + 1,
             log := s.log ++ ("\n--- AGENT: Icarus Simulator ---" :: simBranchLog res) }
  else
    { s with simulation_output := "",
             log := s.log ++ ("\n--- AGENT: Icarus Simulator ---" :: simBranchLog res) }

/-! ### The router -/

/-- The four route strings `check_simulation_results_node` can return:
`"success"`, `"fix_testbench"`, `"fix_design"`, `"end"`. -/
inductive Route where
  | success
  | fix_testbench
  | fix_design
  | route_end
deriving DecidableEq

/-- The source's `is_tb_error` expression: some nonempty testbench filename
occurs in the simulation output, or `"timeout"` occurs in the lowercased
simulation output. -/
def is_tb_error (simOut : String) (tbFiles : List String) : Bool :=
  tbFiles.any (fun f => (f != "") && strContains simOut f)
    || strContains (strLower simOut) "timeout"

/-- `check_simulation_results_node`, the conditional router consulted after
each simulation: empty output routes to `success`; otherwise a reached
retry budget routes to `end`; otherwise the testbench/design classification
decides.  The router is a pure function of the state: the log lines it
builds locally are discarded by LangGraph's conditional-edge mechanism and
are therefore not modelled. -/
def check_simulation_results_node (maxRetries : Nat) (s : GraphState) :
    Route :=
  if s.simulation_output = "" then Route.success
  else if maxRetries ≤ s.error_count then Route.route_end
  else if is_tb_error s.simulation_output (s.testbench_code.map Prod.fst) then
    Route.fix_testbench
  else Route.fix_design

/-! ### The corrector nodes -/

/-- `module_corrector_node`: scans the decomposed-file names in insertion
order for the first one occurring in the error log; when none is found it
applies no correction and records a warning, otherwise it replaces that
file's content with the (markdown-stripped) LLM response `resp` and records
the diff. -/
def module_corrector_node (resp : String) (s : GraphState) : GraphState :=
  let log1 := s.log ++ ["\n--- AGENT: Verilog Module Corrector ---",
    "♻️ Attempting to fix previous design error..."]
  match (s.decomposed_files.map Prod.fst).find?
      (fun f => strContains s.simulation_output f) with
  | none =>
      { s with log := log1 ++
          ["⚠️ Could not identify a specific faulty module from the error log. No correction applied."] }
  | some fname =>
      let faulty := (dictGet s.decomposed_files fname).getD ""
      let corrected := pyStrip (pyReplace (pyReplace resp "```verilog" "") "```" "")
      { s with
          decomposed_files := dictSet s.decomposed_files fname corrected,
          log := log_code_changes
            (log1 ++ ["Identified faulty file: `" ++ fname ++ "`",
              "✅ Design correction generated for `" ++ fname ++ "`."])
            fname faulty corrected }

/-- `testbench_corrector_node`: `resp` is the outcome of extracting and
`json.loads`-parsing the LLM response (`none` when no JSON object is found
or decoding fails; a parsed-but-empty dict takes the same `except` path via
the source's explicit `ValueError`).  On success the whole
`testbench_code` dict is replaced by the parsed dict and the diff against
the previous first testbench entry is recorded; on failure the original
dict is kept and the failure is recorded in the log. -/
def testbench_corrector_node (resp : Option (List (String × String)))
    (s : GraphState) : GraphState :=
  let log1 := s.log ++ ["\n--- AGENT: Testbench Corrector ---",
    "♻️ Attempting to fix previous testbench error..."]
  let faulty_tb_code :=
    match s.testbench_code with
    | [] => "# Faulty testbench code was not found"
    | (_, c) :: _ => c
  match resp with
  | some ((fname, code) :: rest) =>
      { s with
          testbench_code := (fname, code) :: rest,
          log := log_code_changes
            (log1 ++ ["✅ Testbench correction generated for: `" ++ fname ++ "`"])
            fname faulty_tb_code code }
  | some [] =>
      { s with log := log1 ++
          ["❌ Failed to generate valid corrected testbench JSON."] }
  | none =>
      { s with log := log1 ++
          ["❌ Failed to generate valid corrected testbench JSON."] }

/-! ### The generation-side nodes needed for the end-to-end runs -/

/-- `testbench_generator_node`: `resp` is the outcome of parsing the LLM
response as JSON; on any failure the testbench dict becomes empty.  An
empty `decomposed_files` short-circuits the same way. -/
def testbench_generator_node (resp : Option (List (String × String)))
    (s : GraphState) : GraphState :=
  let log1 := s.log ++ ["\n--- AGENT: Testbench Writer ---"]
  if s.decomposed_files.isEmpty then
    { s with testbench_code := [],
             log := log1 ++
               ["❌ Cannot generate testbench: No decomposed module files were provided."] }
  else
    match resp with
    | some d =>
        { s with testbench_code := d,
                 log := log1 ++ ["✍️ Generating new testbench...",
                   "✅ Testbench generated."] }
    | none =>
        { s with testbench_code := [],
                 log := log1 ++ ["✍️ Generating new testbench...",
                   "❌ Failed to generate valid testbench JSON."] }

/-- `decomposer_node`: `resp` is the outcome of extracting a JSON object
from the LLM response and reading its `files` and `top_module_name` keys
(`none` when no JSON object is found or decoding fails).  The source's own
validity check — missing/empty `files` or `top_module_name` raises
`ValueError` — lands in the same `except` arm, which logs the failure and
falls back to a single monolithic file named after the regex-extracted top
module. -/
def decomposer_node (resp : Option (List (String × String) × String))
    (s : GraphState) : GraphState :=
  let log1 := s.log ++ ["\n--- AGENT: Decomposer & Header Extractor ---",
    "Decomposing code and extracting headers..."]
  let fallback : GraphState :=
    let top := fallbackTopName s.generation
    { s with
        decomposed_files := [(top ++ ".v", s.generation)],
        top_module_name := top,
        log := log1 ++
          ["❌ Failed to parse valid JSON from decomposer. Falling back to monolithic code."] }
  match resp with
  | none => fallback
  | some (files, top) =>
      if files.isEmpty || top = "" then fallback
      else
        { s with decomposed_files := files, top_module_name := top,
                 log := log1 ++ ["✅ Decomposed into files."] }

/-- `file_writer_node`: persists the artifact dicts to disk (out of scope
per the spec — the engine never reads them back) and logs; it modifies no
artifact content and no counter. -/
def file_writer_node (s : GraphState) : GraphState :=
  { s with log := s.log ++ ["\n--- AGENT: File Writer ---",
      "Writing files to output directory."] }

/-! ### The correction loop induced by the graph edges

`simulator → check_simulation → {summarizer | END | corrector → file_writer
→ simulator}`.  The post-success documentation stages do not touch the
modelled state.  The external collaborators' behaviours across passes are
supplied as functions of the pass index; `fuel` plays the role of the
`recursion_limit` config (100 in the source). -/

/-- Terminal status of a run of the correction loop. -/
inductive Outcome where
  | succeeded
  | budget_exceeded
  | fuel_exhausted
deriving DecidableEq

/-- Result of running the correction loop: the final state, the terminal
outcome, the route taken at each router consultation, and the state as it
stood at each router consultation (immediately after each simulation). -/
structure LoopResult where
  final : GraphState
  outcome : Outcome
  routes : List Route
  states : List GraphState
deriving DecidableEq

/-- The correction loop: simulate, route, and on a correction route run the
selected corrector followed by the file writer and loop. -/
def runLoop (mr : Nat) (sims : Nat → SimResult)
    (tbs : Nat → Option (List (String × String))) (mods : Nat → String) :
    Nat → Nat → GraphState → LoopResult
  | 0, _, s =>
      { final := s, outcome := Outcome.fuel_exhausted, routes := [],
        states := [] }
  | fuel + 1, k, s =>
      match check_simulation_results_node mr (simulator_node (sims k) s) with
      | Route.success =>
          { final := simulator_node (sims k) s, outcome := Outcome.succeeded,
            routes := [Route.success], states := [simulator_node (sims k) s] }
      | Route.route_end =>
          { final := simulator_node (sims k) s,
            outcome := Outcome.budget_exceeded,
            routes := [Route.route_end],
            states := [simulator_node (sims k) s] }
      | Route.fix_testbench =>
          let r := runLoop mr sims tbs mods fuel (k + 1)
            (file_writer_node
              (testbench_corrector_node (tbs k) (simulator_node (sims k) s)))
          { final := r.final, outcome := r.outcome,
            routes := Route.fix_testbench :: r.routes,
            states := simulator_node (sims k) s :: r.states }
      | Route.fix_design =>
          let r := runLoop mr sims tbs mods fuel (k + 1)
            (file_writer_node
              (module_corrector_node (mods k) (simulator_node (sims k) s)))
          { final := r.final, outcome := r.outcome,
            routes := Route.fix_design :: r.routes,
            states := simulator_node (sims k) s :: r.states }

/-- A full run from the decomposer on: decompose, generate the testbench,
write the files, then enter the correction loop (the retrieval and initial
generation stages only produce `query`/`generation`, which are taken as
part of the start state). -/
def fullRun (mr : Nat) (dresp : Option (List (String × String) × String))
    (tresp : Option (List (String × String))) (sims : Nat → SimResult)
    (tbs : Nat → Option (List (String × String))) (mods : Nat → String)
    (fuel : Nat) (s : GraphState) : LoopResult :=
  runLoop mr sims tbs mods fuel 0
    (file_writer_node (testbench_generator_node tresp (decomposer_node dresp s)))

/-- Number of router passes that selected a correction branch. -/
def countCorrections (rs : List Route) : Nat :=
  (rs.filter
    (fun r => decide (r = Route.fix_testbench ∨ r = Route.fix_design))).length

/-- The change log is exactly the set of `🔍` diff entries that
`log_code_changes` appends to the run log; this counts them. -/
def changeLogCount (log : List String) : Nat :=
  (log.filter (fun m => strStarts "🔍" m)).length

/-- A concrete start state used by the closed counterexample runs. -/
def s0 : GraphState :=
  { query := "and gate", log := [], generation := "module foo ;",
    decomposed_files := [("foo.v", "module foo ;")],
    testbench_code := [("foo_tb.v", "tb code")],
    simulation_output := "", error_count := 0, top_module_name := "foo" }

/-- A concrete failing state whose validation log cites the testbench
file name (used as a classifier witness input). -/
def sTb : GraphState :=
  { query := "and gate", log := [], generation := "module foo ;",
    decomposed_files := [("foo.v", "module foo ;")],
    testbench_code := [("foo_tb.v", "tb code")],
    simulation_output := "vvp: foo_tb.v reported a failure",
    error_count := 1, top_module_name := "foo" }

/-- A concrete failing state whose counter sits at the default retry
budget (used as a budget-exhaustion witness input). -/
def sCap : GraphState :=
  { query := "and gate", log := [], generation := "module foo ;",
    decomposed_files := [("foo.v", "module foo ;")],
    testbench_code := [("foo_tb.v", "tb code")],
    simulation_output := "x ERROR y", error_count := 10,
    top_module_name := "foo" }

/-! ## Helper lemmas -/

theorem strData_append (s t : String) : (s ++ t).data = s.data ++ t.data := by
  cases s
  cases t
  rfl

theorem charsLeadOf_append_of_true (p l r : List Char)
    (h : charsLeadOf p l = true) : charsLeadOf p (l ++ r) = true := by
  induction p generalizing l with
  | nil => simp [charsLeadOf]
  | cons a as ih =>
    cases l with
    | nil => simp [charsLeadOf] at h
    | cons b bs =>
      simp only [charsLeadOf, List.cons_append, Bool.and_eq_true] at h ⊢
      exact ⟨h.1, ih bs h.2⟩

theorem charsLeadOf_append_of_long (p l r : List Char)
    (h : p.length ≤ l.length) : charsLeadOf p (l ++ r) = charsLeadOf p l := by
  induction p generalizing l with
  | nil => simp [charsLeadOf]
  | cons a as ih =>
    cases l with
    | nil => simp at h
    | cons b bs =>
      simp only [charsLeadOf, List.cons_append]
      congr 1
      exact ih bs (by simpa using h)

theorem strStarts_append_true (p s t : String) (h : strStarts p s = true) :
    strStarts p (s ++ t) = true := by
  unfold strStarts at h ⊢
  rw [strData_append]
  exact charsLeadOf_append_of_true _ _ _ h

theorem strStarts_append_long (p s t : String)
    (h : p.data.length ≤ s.data.length) :
    strStarts p (s ++ t) = strStarts p s := by
  unfold strStarts
  rw [strData_append]
  exact charsLeadOf_append_of_long _ _ _ h

theorem changeEntry_starts (lit f lit2 : String)
    (h : strStarts "🔍" lit = true) :
    strStarts "🔍" ((lit ++ f) ++ lit2) = true :=
  strStarts_append_true _ _ _ (strStarts_append_true _ _ _ h)

theorem notChangeEntry (lit f lit2 : String) (h : strStarts "🔍" lit = false)
    (hl : 1 ≤ lit.data.length) :
    strStarts "🔍" ((lit ++ f) ++ lit2) = false := by
  have hp : ("🔍" : String).data.length = 1 := by decide
  have h1 : strStarts "🔍" (lit ++ f) = false := by
    rw [strStarts_append_long _ _ _ (by omega)]
    exact h
  rw [strStarts_append_long]
  · exact h1
  · rw [strData_append, List.length_append]
    omega

theorem changeLogCount_append (l m : List String) :
    changeLogCount (l ++ m) = changeLogCount l + changeLogCount m := by
  simp [changeLogCount, List.filter_append]

theorem log_code_changes_count (l : List String) (f a b : String) :
    changeLogCount (log_code_changes l f a b) = changeLogCount l + 1 := by
  unfold log_code_changes
  split
  · rw [changeLogCount_append]
    have h1 : strStarts "🔍"
        (("🔍 No functional changes detected for `" ++ f) ++ "`.") = true :=
      changeEntry_starts _ _ _ (by decide)
    simp [changeLogCount, h1]
  · rw [changeLogCount_append]
    have h1 : strStarts "🔍"
        (("🔍 Code changes for `" ++ f) ++ "`:") = true :=
      changeEntry_starts _ _ _ (by decide)
    simp [changeLogCount, h1]

theorem contains_ERROR_ne_empty (out : String)
    (h : strContains out "ERROR" = true) : out ≠ "" := by
  intro he
  rw [he] at h
  exact absurd h (by decide)

/-! ### Field and change-log facts about the individual nodes -/

theorem simulator_error_count (res : SimResult) (s : GraphState) :
    (simulator_node res s).error_count =
      if strContains (simOutputOf res) "ERROR" then s.error_count + 1
      else s.error_count := by
  unfold simulator_node
  split <;> rfl

theorem simulator_output (res : SimResult) (s : GraphState) :
    (simulator_node res s).simulation_output =
      if strContains (simOutputOf res) "ERROR" then simOutputOf res
      else "" := by
  unfold simulator_node
  split <;> rfl

theorem simulator_changeLog (res : SimResult) (s : GraphState) :
    changeLogCount (simulator_node res s).log = changeLogCount s.log := by
  have hbr : changeLogCount
      ("\n--- AGENT: Icarus Simulator ---" :: simBranchLog res) = 0 := by
    cases res with
    | ok stdout =>
      show changeLogCount ["\n--- AGENT: Icarus Simulator ---",
        "✅ Compilation successful.", "✅ Simulation finished."] = 0
      decide
    | procError isCompile stderr stdout =>
      cases isCompile with
      | true =>
        show changeLogCount ["\n--- AGENT: Icarus Simulator ---",
          "❌ Simulation Failed."] = 0
        decide
      | false =>
        show changeLogCount ["\n--- AGENT: Icarus Simulator ---",
          "✅ Compilation successful.", "❌ Simulation Failed."] = 0
        decide
    | timedOut =>
      show changeLogCount ["\n--- AGENT: Icarus Simulator ---",
        "❌ ERROR: Simulation timed out."] = 0
      decide
  unfold simulator_node
  split <;> simp [changeLogCount_append, hbr]

theorem file_writer_error_count (s : GraphState) :
    (file_writer_node s).error_count = s.error_count := rfl

theorem file_writer_changeLog (s : GraphState) :
    changeLogCount (file_writer_node s).log = changeLogCount s.log := by
  unfold file_writer_node
  simp [changeLogCount_append]
  decide

theorem tb_corrector_error_count (resp : Option (List (String × String)))
    (s : GraphState) :
    (testbench_corrector_node resp s).error_count = s.error_count := by
  unfold testbench_corrector_node
  rcases resp with _ | (_ | ⟨⟨f, c⟩, rest⟩) <;> rfl

theorem tb_corrector_changeLog (resp : Option (List (String × String)))
    (s : GraphState) :
    changeLogCount (testbench_corrector_node resp s).log ≤
      changeLogCount s.log + 1 := by
  unfold testbench_corrector_node
  rcases resp with _ | (_ | ⟨⟨f, c⟩, rest⟩)
  · simp [changeLogCount_append]
    have : changeLogCount ["\n--- AGENT: Testbench Corrector ---",
      "♻️ Attempting to fix previous testbench error...",
      "❌ Failed to generate valid corrected testbench JSON."] = 0 := by decide
    omega
  · simp [changeLogCount_append]
    have : changeLogCount ["\n--- AGENT: Testbench Corrector ---",
      "♻️ Attempting to fix previous testbench error...",
      "❌ Failed to generate valid corrected testbench JSON."] = 0 := by decide
    omega
  · simp only [log_code_changes_count, changeLogCount_append]
    have e1 : strStarts "🔍" "\n--- AGENT: Testbench Corrector ---" = false := by
      decide
    have e2 : strStarts "🔍"
        "♻️ Attempting to fix previous testbench error..." = false := by decide
    have e3 : strStarts "🔍"
        (("✅ Testbench correction generated for: `" ++ f) ++ "`") = false :=
      notChangeEntry "✅ Testbench correction generated for: `" f "`"
        (by decide) (by decide)
    simp [changeLogCount, e1, e2, e3]

theorem mod_corrector_error_count (resp : String) (s : GraphState) :
    (module_corrector_node resp s).error_count = s.error_count := by
  unfold module_corrector_node
  cases h : (s.decomposed_files.map Prod.fst).find?
      (fun f => strContains s.simulation_output f) <;> simp [h]

theorem mod_corrector_changeLog (resp : String) (s : GraphState) :
    changeLogCount (module_corrector_node resp s).log ≤
      changeLogCount s.log + 1 := by
  unfold module_corrector_node
  cases h : (s.decomposed_files.map Prod.fst).find?
      (fun f => strContains s.simulation_output f) with
  | none =>
    simp only [h]
    have : changeLogCount ["\n--- AGENT: Verilog Module Corrector ---",
      "♻️ Attempting to fix previous design error...",
      "⚠️ Could not identify a specific faulty module from the error log. No correction applied."] = 0 := by decide
    simp [changeLogCount_append]
    omega
  | some fname =>
    simp only [h, log_code_changes_count]
    have e1 : strStarts "🔍"
        "\n--- AGENT: Verilog Module Corrector ---" = false := by decide
    have e2 : strStarts "🔍"
        "♻️ Attempting to fix previous design error..." = false := by decide
    have e3 : strStarts "🔍"
        (("Identified faulty file: `" ++ fname) ++ "`") = false :=
      notChangeEntry "Identified faulty file: `" fname "`" (by decide)
        (by decide)
    have e4 : strStarts "🔍"
        (("✅ Design correction generated for `" ++ fname) ++ "`.") = false :=
      notChangeEntry "✅ Design correction generated for `" fname "`."
        (by decide) (by decide)
    simp [changeLogCount_append, changeLogCount, e1, e2, e3, e4]

/-! ### Router case lemmas -/

theorem router_success (mr : Nat) (s : GraphState)
    (h : s.simulation_output = "") :
    check_simulation_results_node mr s = Route.success := by
  simp [check_simulation_results_node, h]

theorem router_budget (mr : Nat) (s : GraphState)
    (h1 : s.simulation_output ≠ "") (h2 : mr ≤ s.error_count) :
    check_simulation_results_node mr s = Route.route_end := by
  simp [check_simulation_results_node, h1, h2]

theorem router_correction (mr : Nat) (s : GraphState)
    (h1 : s.simulation_output ≠ "") (h2 : s.error_count < mr) :
    check_simulation_results_node mr s = Route.fix_testbench ∨
      check_simulation_results_node mr s = Route.fix_design := by
  unfold check_simulation_results_node
  rw [if_neg h1, if_neg (not_le.mpr h2)]
  by_cases h : is_tb_error s.simulation_output (s.testbench_code.map Prod.fst)
  · left
    rw [if_pos h]
  · right
    rw [if_neg h]

theorem router_lt_of_fix (mr : Nat) (s : GraphState)
    (h : check_simulation_results_node mr s = Route.fix_testbench ∨
         check_simulation_results_node mr s = Route.fix_design) :
    s.error_count < mr := by
  by_cases ho : s.simulation_output = ""
  · rw [router_success mr s ho] at h
    rcases h with h | h <;> exact absurd h (by simp)
  · by_cases hge : mr ≤ s.error_count
    · rw [router_budget mr s ho hge] at h
      rcases h with h | h <;> exact absurd h (by simp)
    · exact not_le.mp hge

/-! ### One-step unfoldings of the correction loop -/

theorem runLoop_step_success (mr : Nat) (sims : Nat → SimResult)
    (tbs : Nat → Option (List (String × String))) (mods : Nat → String)
    (n k : Nat) (s : GraphState)
    (h : check_simulation_results_node mr (simulator_node (sims k) s) =
      Route.success) :
    runLoop mr sims tbs mods (n + 1) k s =
      { final := simulator_node (sims k) s, outcome := Outcome.succeeded,
        routes := [Route.success], states := [simulator_node (sims k) s] } := by
  simp only [runLoop, h]

theorem runLoop_step_end (mr : Nat) (sims : Nat → SimResult)
    (tbs : Nat → Option (List (String × String))) (mods : Nat → String)
    (n k : Nat) (s : GraphState)
    (h : check_simulation_results_node mr (simulator_node (sims k) s) =
      Route.route_end) :
    runLoop mr sims tbs mods (n + 1) k s =
      { final := simulator_node (sims k) s,
        outcome := Outcome.budget_exceeded,
        routes := [Route.route_end],
        states := [simulator_node (sims k) s] } := by
  simp only [runLoop, h]

theorem runLoop_step_tb (mr : Nat) (sims : Nat → SimResult)
    (tbs : Nat → Option (List (String × String))) (mods : Nat → String)
    (n k : Nat) (s : GraphState)
    (h : check_simulation_results_node mr (simulator_node (sims k) s) =
      Route.fix_testbench) :
    runLoop mr sims tbs mods (n + 1) k s =
      { final := (runLoop mr sims tbs mods n (k + 1)
          (file_writer_node (testbench_corrector_node (tbs k)
            (simulator_node (sims k) s)))).final,
        outcome := (runLoop mr sims tbs mods n (k + 1)
          (file_writer_node (testbench_corrector_node (tbs k)
            (simulator_node (sims k) s)))).outcome,
        routes := Route.fix_testbench :: (runLoop mr sims tbs mods n (k + 1)
          (file_writer_node (testbench_corrector_node (tbs k)
            (simulator_node (sims k) s)))).routes,
        states := simulator_node (sims k) s :: (runLoop mr sims tbs mods n (k + 1)
          (file_writer_node (testbench_corrector_node (tbs k)
            (simulator_node (sims k) s)))).states } := by
  simp only [runLoop, h]

theorem runLoop_step_design (mr : Nat) (sims : Nat → SimResult)
    (tbs : Nat → Option (List (String × String))) (mods : Nat → String)
    (n k : Nat) (s : GraphState)
    (h : check_simulation_results_node mr (simulator_node (sims k) s) =
      Route.fix_design) :
    runLoop mr sims tbs mods (n + 1) k s =
      { final := (runLoop mr sims tbs mods n (k + 1)
          (file_writer_node (module_corrector_node (mods k)
            (simulator_node (sims k) s)))).final,
        outcome := (runLoop mr sims tbs mods n (k + 1)
          (file_writer_node (module_corrector_node (mods k)
            (simulator_node (sims k) s)))).outcome,
        routes := Route.fix_design :: (runLoop mr sims tbs mods n (k + 1)
          (file_writer_node (module_corrector_node (mods k)
            (simulator_node (sims k) s)))).routes,
        states := simulator_node (sims k) s :: (runLoop mr sims tbs mods n (k + 1)
          (file_writer_node (module_corrector_node (mods k)
            (simulator_node (sims k) s)))).states } := by
  simp only [runLoop, h]

theorem countCorrections_end : countCorrections [Route.route_end] = 0 := by
  decide

theorem countCorrections_cons_tb (rs : List Route) :
    countCorrections (Route.fix_testbench :: rs) = countCorrections rs + 1 := by
  simp [countCorrections]

theorem countCorrections_cons_design (rs : List Route) :
    countCorrections (Route.fix_design :: rs) = countCorrections rs + 1 := by
  simp [countCorrections]

/-! ### Loop-level lemmas -/

theorem runLoop_states_bound (mr : Nat) (sims : Nat → SimResult)
    (tbs : Nat → Option (List (String × String))) (mods : Nat → String) :
    ∀ (fuel k : Nat) (s : GraphState), s.error_count < mr →
      ∀ t ∈ (runLoop mr sims tbs mods fuel k s).states,
        t.error_count ≤ mr := by
  intro fuel
  induction fuel with
  | zero =>
    intro k s _ t ht
    simp [runLoop] at ht
  | succ n ih =>
    intro k s hlt t ht
    have hb : (simulator_node (sims k) s).error_count ≤ mr := by
      rw [simulator_error_count]
      split <;> omega
    cases hr : check_simulation_results_node mr (simulator_node (sims k) s) with
    | success =>
      rw [runLoop_step_success mr sims tbs mods n k s hr] at ht
      simp at ht
      rw [ht]
      exact hb
    | route_end =>
      rw [runLoop_step_end mr sims tbs mods n k s hr] at ht
      simp at ht
      rw [ht]
      exact hb
    | fix_testbench =>
      rw [runLoop_step_tb mr sims tbs mods n k s hr] at ht
      simp only [List.mem_cons] at ht
      rcases ht with rfl | ht
      · exact hb
      · refine ih (k + 1) _ ?_ t ht
        have hlt1 : (simulator_node (sims k) s).error_count < mr :=
          router_lt_of_fix mr _ (Or.inl hr)
        rw [file_writer_error_count, tb_corrector_error_count]
        exact hlt1
    | fix_design =>
      rw [runLoop_step_design mr sims tbs mods n k s hr] at ht
      simp only [List.mem_cons] at ht
      rcases ht with rfl | ht
      · exact hb
      · refine ih (k + 1) _ ?_ t ht
        have hlt1 : (simulator_node (sims k) s).error_count < mr :=
          router_lt_of_fix mr _ (Or.inr hr)
        rw [file_writer_error_count, mod_corrector_error_count]
        exact hlt1

theorem alwaysFail_run (mr : Nat) (sims : Nat → SimResult)
    (tbs : Nat → Option (List (String × String))) (mods : Nat → String)
    (H : ∀ k, strContains (simOutputOf (sims k)) "ERROR" = true) :
    ∀ (fuel k : Nat) (s : GraphState), s.error_count < mr →
      mr ≤ s.error_count + fuel →
      (runLoop mr sims tbs mods fuel k s).outcome = Outcome.budget_exceeded ∧
      countCorrections (runLoop mr sims tbs mods fuel k s).routes =
        mr - s.error_count - 1 ∧
      changeLogCount (runLoop mr sims tbs mods fuel k s).final.log ≤
        changeLogCount s.log + (mr - s.error_count - 1) := by
  intro fuel
  induction fuel with
  | zero =>
    intro k s h1 h2
    exact absurd h2 (by omega)
  | succ n ih =>
    intro k s h1 h2
    have hec : (simulator_node (sims k) s).error_count = s.error_count + 1 := by
      rw [simulator_error_count, if_pos (H k)]
    have hne : (simulator_node (sims k) s).simulation_output ≠ "" := by
      rw [simulator_output, if_pos (H k)]
      exact contains_ERROR_ne_empty _ (H k)
    by_cases hge : mr ≤ (simulator_node (sims k) s).error_count
    · have hr := router_budget mr _ hne hge
      rw [runLoop_step_end mr sims tbs mods n k s hr]
      rw [hec] at hge
      refine ⟨rfl, ?_, ?_⟩
      · show countCorrections [Route.route_end] = mr - s.error_count - 1
        rw [countCorrections_end]
        omega
      · show changeLogCount (simulator_node (sims k) s).log ≤ _
        rw [simulator_changeLog]
        exact Nat.le_add_right _ _
    · have hlt2 : (simulator_node (sims k) s).error_count < mr := not_le.mp hge
      have hlt2' : s.error_count + 1 < mr := by rw [hec] at hlt2; exact hlt2
      rcases router_correction mr _ hne hlt2 with hr | hr
      · rw [runLoop_step_tb mr sims tbs mods n k s hr]
        have hc2 : (file_writer_node (testbench_corrector_node (tbs k)
            (simulator_node (sims k) s))).error_count = s.error_count + 1 := by
          rw [file_writer_error_count, tb_corrector_error_count, hec]
        have hcl2 : changeLogCount (file_writer_node (testbench_corrector_node
            (tbs k) (simulator_node (sims k) s))).log ≤
            changeLogCount s.log + 1 := by
          rw [file_writer_changeLog]
          calc changeLogCount (testbench_corrector_node (tbs k)
                  (simulator_node (sims k) s)).log
              ≤ changeLogCount (simulator_node (sims k) s).log + 1 :=
                tb_corrector_changeLog _ _
            _ = changeLogCount s.log + 1 := by rw [simulator_changeLog]
        have ihr := ih (k + 1)
          (file_writer_node (testbench_corrector_node (tbs k)
            (simulator_node (sims k) s)))
          (by rw [hc2]; omega) (by rw [hc2]; omega)
        refine ⟨ihr.1, ?_, ?_⟩
        · show countCorrections (Route.fix_testbench :: _) = _
          rw [countCorrections_cons_tb, ihr.2.1, hc2]
          omega
        · show changeLogCount (runLoop mr sims tbs mods n (k + 1)
              (file_writer_node (testbench_corrector_node (tbs k)
                (simulator_node (sims k) s)))).final.log ≤
            changeLogCount s.log + (mr - s.error_count - 1)
          have h3 := ihr.2.2
          rw [hc2] at h3
          omega
      · rw [runLoop_step_design mr sims tbs mods n k s hr]
        have hc2 : (file_writer_node (module_corrector_node (mods k)
            (simulator_node (sims k) s))).error_count = s.error_count + 1 := by
          rw [file_writer_error_count, mod_corrector_error_count, hec]
        have hcl2 : changeLogCount (file_writer_node (module_corrector_node
            (mods k) (simulator_node (sims k) s))).log ≤
            changeLogCount s.log + 1 := by
          rw [file_writer_changeLog]
          calc changeLogCount (module_corrector_node (mods k)
                  (simulator_node (sims k) s)).log
              ≤ changeLogCount (simulator_node (sims k) s).log + 1 :=
                mod_corrector_changeLog _ _
            _ = changeLogCount s.log + 1 := by rw [simulator_changeLog]
        have ihr := ih (k + 1)
          (file_writer_node (module_corrector_node (mods k)
            (simulator_node (sims k) s)))
          (by rw [hc2]; omega) (by rw [hc2]; omega)
        refine ⟨ihr.1, ?_, ?_⟩
        · show countCorrections (Route.fix_design :: _) = _
          rw [countCorrections_cons_design, ihr.2.1, hc2]
          omega
        · show changeLogCount (runLoop mr sims tbs mods n (k + 1)
              (file_writer_node (module_corrector_node (mods k)
                (simulator_node (sims k) s)))).final.log ≤
            changeLogCount s.log + (mr - s.error_count - 1)
          have h3 := ihr.2.2
          rw [hc2] at h3
          omega

theorem runLoop_first_success (mr : Nat) (sims : Nat → SimResult)
    (tbs : Nat → Option (List (String × String))) (mods : Nat → String)
    (n k : Nat) (s : GraphState)
    (h : strContains (simOutputOf (sims k)) "ERROR" = false) :
    (runLoop mr sims tbs mods (n + 1) k s).outcome = Outcome.succeeded := by
  have ho : (simulator_node (sims k) s).simulation_output = "" := by
    rw [simulator_output, if_neg (by simp [h])]
  rw [runLoop_step_success mr sims tbs mods n k s (router_success mr _ ho)]

/-! ## Claim theorems -/

/-- C1, counterexample: the retry counter is not incremented "only after the
budget check has passed".  From the concrete state `s0` (counter `0`) with
budget `1`, a failing validation attempt increments the counter to `1`
inside the simulator stage, and the router pass evaluated immediately
afterwards then fails its budget check and terminates with
`BUDGET_EXCEEDED` — so an increment occurred on a pass whose budget check
did not pass, and no Classifier consultation or correction followed it. -/
theorem C1_counterexample :
    (simulator_node SimResult.timedOut s0).error_count = s0.error_count + 1 ∧
    check_simulation_results_node 1 (simulator_node SimResult.timedOut s0) =
      Route.route_end := by
  refine ⟨?_, ?_⟩ <;> decide

/-- C1, amended: the routing decision evaluated after each validation
attempt follows the order: empty validation log → `SUCCESS` (regardless of
the counter); else `retryCount ≥ retryBudget` → `BUDGET_EXCEEDED`; else
the classification decides between `CORRECT_COMPANION` and
`CORRECT_PRIMARY`.  The retry counter is not incremented by the router:
the validation stage itself increments it on every failing attempt, before
the routing decision, so the budget check compares the already-incremented
count. -/
theorem C1_router_order (mr : Nat) (s : GraphState) (res : SimResult) :
    (s.simulation_output = "" →
      check_simulation_results_node mr s = Route.success) ∧
    (s.simulation_output ≠ "" → mr ≤ s.error_count →
      check_simulation_results_node mr s = Route.route_end) ∧
    (s.simulation_output ≠ "" → s.error_count < mr →
      check_simulation_results_node mr s =
        (if is_tb_error s.simulation_output (s.testbench_code.map Prod.fst)
         then Route.fix_testbench else Route.fix_design)) ∧
    (strContains (simOutputOf res) "ERROR" = true →
      (simulator_node res s).error_count = s.error_count + 1) := by
  refine ⟨router_success mr s, router_budget mr s, ?_, ?_⟩
  · intro h1 h2
    unfold check_simulation_results_node
    rw [if_neg h1, if_neg (not_le.mpr h2)]
  · intro h
    rw [simulator_error_count, if_pos h]

/-- Witness for `C1_router_order` at concrete inputs. -/
theorem C1_router_order_witness :
    check_simulation_results_node 10 s0 = Route.success ∧
    check_simulation_results_node 1 (simulator_node (SimResult.ok "x ERROR y") s0) =
      Route.route_end ∧
    check_simulation_results_node 10 (simulator_node (SimResult.ok "x ERROR y") s0) =
      (if is_tb_error (simulator_node (SimResult.ok "x ERROR y") s0).simulation_output
          ((simulator_node (SimResult.ok "x ERROR y") s0).testbench_code.map Prod.fst)
       then Route.fix_testbench else Route.fix_design) ∧
    (simulator_node (SimResult.ok "x ERROR y") s0).error_count =
      s0.error_count + 1 :=
  ⟨(C1_router_order 10 s0 (SimResult.ok "x ERROR y")).1 rfl,
   (C1_router_order 1 (simulator_node (SimResult.ok "x ERROR y") s0)
     (SimResult.ok "x ERROR y")).2.1 (by decide) (by decide),
   (C1_router_order 10 (simulator_node (SimResult.ok "x ERROR y") s0)
     (SimResult.ok "x ERROR y")).2.2.1 (by decide) (by decide),
   (C1_router_order 10 s0 (SimResult.ok "x ERROR y")).2.2.2 (by decide)⟩

/-- C2, counterexample: a run whose validator fails on every attempt with
retry budget `3` performs only `2` correction attempts, not `3`, and
(since neither corrector can identify a faulty file from this log) its
change log stays empty rather than reaching length `3`. -/
theorem C2_counterexample :
    (runLoop 3 (fun _ => SimResult.ok "ERROR wrong result")
      (fun _ => some [("foo_tb.v", "tb2")]) (fun _ => "fix") 10 0 s0).outcome
        = Outcome.budget_exceeded ∧
    countCorrections (runLoop 3 (fun _ => SimResult.ok "ERROR wrong result")
      (fun _ => some [("foo_tb.v", "tb2")]) (fun _ => "fix") 10 0 s0).routes
        = 2 ∧
    changeLogCount (runLoop 3 (fun _ => SimResult.ok "ERROR wrong result")
      (fun _ => some [("foo_tb.v", "tb2")]) (fun _ => "fix") 10 0 s0).final.log
        = 0 := by
  refine ⟨?_, ?_, ?_⟩ <;> decide

/-- C2, amended: for every run in which the validator fails on every
attempt and the retry budget is `3`, exactly `2` correction attempts are
performed before the run terminates (the budget check fires one pass
early, because the counter was already incremented by the failing
validation of the same pass), the terminal state is `BUDGET_EXCEEDED`,
and the change log gains at most one entry per correction attempt. -/
theorem C2_budget_three_runs (sims : Nat → SimResult)
    (tbs : Nat → Option (List (String × String))) (mods : Nat → String)
    (H : ∀ k, strContains (simOutputOf (sims k)) "ERROR" = true)
    (fuel k : Nat) (s : GraphState) (h0 : s.error_count = 0)
    (hf : 3 ≤ fuel) :
    (runLoop 3 sims tbs mods fuel k s).outcome = Outcome.budget_exceeded ∧
    countCorrections (runLoop 3 sims tbs mods fuel k s).routes = 2 ∧
    changeLogCount (runLoop 3 sims tbs mods fuel k s).final.log ≤
      changeLogCount s.log + 2 := by
  have h := alwaysFail_run 3 sims tbs mods H fuel k s (by omega) (by omega)
  rw [h0] at h
  exact h

/-- Witness for `C2_budget_three_runs` at concrete inputs. -/
theorem C2_budget_three_runs_witness :
    (runLoop 3 (fun _ => SimResult.timedOut)
      (fun _ => some [("t_tb.v", "x")]) (fun _ => "y") 5 0 s0).outcome
        = Outcome.budget_exceeded ∧
    countCorrections (runLoop 3 (fun _ => SimResult.timedOut)
      (fun _ => some [("t_tb.v", "x")]) (fun _ => "y") 5 0 s0).routes = 2 ∧
    changeLogCount (runLoop 3 (fun _ => SimResult.timedOut)
      (fun _ => some [("t_tb.v", "x")]) (fun _ => "y") 5 0 s0).final.log ≤
      changeLogCount s0.log + 2 :=
  C2_budget_three_runs _ _ _ (fun _ => by decide) 5 0 s0 rfl (by omega)

/-- C3, counterexample: the retry counter is not incremented "only on
correction branches".  In this concrete always-failing run with budget
`2`, exactly one router pass takes a correction branch, yet the final
counter is `2`: the last failing validation incremented it although the
router pass that followed terminated with `BUDGET_EXCEEDED` and applied
no correction. -/
theorem C3_counterexample :
    (runLoop 2 (fun _ => SimResult.ok "ERROR mismatch detected")
      (fun _ => some [("foo_tb.v", "tb3")]) (fun _ => "patch") 9 0 s0).final.error_count
        = 2 ∧
    countCorrections (runLoop 2 (fun _ => SimResult.ok "ERROR mismatch detected")
      (fun _ => some [("foo_tb.v", "tb3")]) (fun _ => "patch") 9 0 s0).routes
        = 1 := by
  refine ⟨?_, ?_⟩ <;> decide

/-- C3, amended: for every run started with `retryCount = 0` and
`retryBudget ≥ 1`, every state observed at a router consultation satisfies
`retryCount ≤ retryBudget`; the counter is incremented by exactly `1` by
each failing validation attempt (including the final one whose router pass
terminates with `BUDGET_EXCEEDED`) and is unchanged by a successful
validation, by either corrector, and by the file writer; and once the
counter has reached the budget while validation still fails, the router
returns the terminal `BUDGET_EXCEEDED` route, after which no further
corrections occur. -/
theorem C3_retry_invariant (mr : Nat) (sims : Nat → SimResult)
    (tbs : Nat → Option (List (String × String))) (mods : Nat → String)
    (hmr : 1 ≤ mr) :
    (∀ (fuel k : Nat) (s : GraphState), s.error_count = 0 →
      ∀ t ∈ (runLoop mr sims tbs mods fuel k s).states,
        t.error_count ≤ mr) ∧
    (∀ (res : SimResult) (s : GraphState),
      (simulator_node res s).error_count =
        (if strContains (simOutputOf res) "ERROR" then s.error_count + 1
         else s.error_count)) ∧
    (∀ (s : GraphState) (resp : Option (List (String × String)))
        (mresp : String),
      (testbench_corrector_node resp s).error_count = s.error_count ∧
      (module_corrector_node mresp s).error_count = s.error_count ∧
      (file_writer_node s).error_count = s.error_count) ∧
    (∀ s : GraphState, s.simulation_output ≠ "" → mr ≤ s.error_count →
      check_simulation_results_node mr s = Route.route_end) := by
  refine ⟨?_, simulator_error_count, ?_, router_budget mr⟩
  · intro fuel k s h0 t ht
    exact runLoop_states_bound mr sims tbs mods fuel k s (by omega) t ht
  · intro s resp mresp
    exact ⟨tb_corrector_error_count resp s, mod_corrector_error_count mresp s,
      file_writer_error_count s⟩

/-- Witness for `C3_retry_invariant` at concrete inputs. -/
theorem C3_retry_invariant_witness :
    (simulator_node SimResult.timedOut s0).error_count ≤ 10 ∧
    check_simulation_results_node 10 sCap = Route.route_end :=
  ⟨(C3_retry_invariant 10 (fun _ => SimResult.timedOut)
      (fun _ => some [("a_tb.v", "b")]) (fun _ => "c") (by omega)).1
      4 0 s0 rfl (simulator_node SimResult.timedOut s0) (by decide),
   (C3_retry_invariant 10 (fun _ => SimResult.timedOut)
      (fun _ => some [("a_tb.v", "b")]) (fun _ => "c") (by omega)).2.2.2
      sCap (by decide) (by decide)⟩

/-- C4, counterexample: a full run in which the Decomposer's response
cannot be parsed is not escalated to a terminal failure: it continues as
a normal run with the monolithic fallback file and, here, even reaches
the `SUCCESS` terminal on its first validation. -/
theorem C4_counterexample :
    (fullRun 10 none (some [("foo_tb.v", "tb")])
      (fun _ => SimResult.ok "ALL TESTS PASSED")
      (fun _ => some [("foo_tb.v", "tb2")]) (fun _ => "fix") 10 s0).outcome
        = Outcome.succeeded ∧
    (fullRun 10 none (some [("foo_tb.v", "tb")])
      (fun _ => SimResult.ok "ALL TESTS PASSED")
      (fun _ => some [("foo_tb.v", "tb2")]) (fun _ => "fix") 10 s0).final.decomposed_files
        = [("foo.v", "module foo ;")] := by
  refine ⟨?_, ?_⟩ <;> decide

/-- C4, amended: when the Decomposer's response cannot be parsed into the
expected structure, the run is not escalated and does not stop: the
engine records the parse failure in the log and falls back to a single
monolithic file (named after the regex-extracted top module) holding the
entire generation, and the run continues as a normal run — in particular,
if the first validation then passes, the run terminates with `SUCCESS`. -/
theorem C4_decomposer_fallback (s : GraphState) :
    (decomposer_node none s).decomposed_files =
      [(fallbackTopName s.generation ++ ".v", s.generation)] ∧
    (decomposer_node none s).top_module_name = fallbackTopName s.generation ∧
    "❌ Failed to parse valid JSON from decomposer. Falling back to monolithic code."
      ∈ (decomposer_node none s).log ∧
    (∀ (mr : Nat) (tresp : Option (List (String × String)))
        (sims : Nat → SimResult)
        (tbs : Nat → Option (List (String × String))) (mods : Nat → String)
        (n : Nat),
      strContains (simOutputOf (sims 0)) "ERROR" = false →
      (fullRun mr none tresp sims tbs mods (n + 1) s).outcome =
        Outcome.succeeded) := by
  refine ⟨rfl, rfl, ?_, ?_⟩
  · show "❌ Failed to parse valid JSON from decomposer. Falling back to monolithic code."
        ∈ (s.log ++ ["\n--- AGENT: Decomposer & Header Extractor ---",
            "Decomposing code and extracting headers..."]) ++
          ["❌ Failed to parse valid JSON from decomposer. Falling back to monolithic code."]
    simp
  · intro mr tresp sims tbs mods n h
    exact runLoop_first_success mr sims tbs mods n 0 _ h

/-- Witness for `C4_decomposer_fallback` at concrete inputs. -/
theorem C4_decomposer_fallback_witness :
    (decomposer_node none s0).decomposed_files =
      [(fallbackTopName s0.generation ++ ".v", s0.generation)] ∧
    (fullRun 7 none (some [("w_tb.v", "w")]) (fun _ => SimResult.ok "done ok")
      (fun _ => some [("w_tb.v", "w2")]) (fun _ => "m") (4 + 1) s0).outcome =
      Outcome.succeeded :=
  ⟨(C4_decomposer_fallback s0).1,
   (C4_decomposer_fallback s0).2.2.2 7 (some [("w_tb.v", "w")])
     (fun _ => SimResult.ok "done ok") (fun _ => some [("w_tb.v", "w2")])
     (fun _ => "m") 4 (by decide)⟩

/-- C5: a simulation timeout is treated as a failing validation (its
message contains `"ERROR"`, so the validation log is kept and the retry
counter is charged), but — contrary to the claim — it does not fire the
router's timeout signal: the message the source stores reads
`"Simulation timed out."`, which does not contain the substring
`"timeout"`, so the pass routes to the module (primary) corrector
`fix_design` rather than to the testbench (companion) corrector. -/
theorem C5_timeout_routed_to_module_corrector :
    (simulator_node SimResult.timedOut s0).error_count = s0.error_count + 1 ∧
    (simulator_node SimResult.timedOut s0).simulation_output =
      simOutputOf SimResult.timedOut ∧
    strContains (strLower (simOutputOf SimResult.timedOut)) "timeout" = false ∧
    check_simulation_results_node MAX_RETRIES
      (simulator_node SimResult.timedOut s0) = Route.fix_design := by
  refine ⟨?_, ?_, ?_, ?_⟩ <;> decide

/-- C6: on a failing validation within budget, the pass routes to the
companion (testbench) corrector exactly when (a) some nonempty testbench
artifact name occurs literally in the validation log, or (b) the log
contains the timeout marker `"timeout"` (case-insensitively); when
neither signal fires the route is the primary corrector `fix_design`
(the design-default for an unclassified failure). -/
theorem C6_classifier (mr : Nat) (s : GraphState)
    (h1 : s.simulation_output ≠ "") (h2 : s.error_count < mr) :
    (check_simulation_results_node mr s = Route.fix_testbench ↔
      ((s.testbench_code.map Prod.fst).any
          (fun f => (f != "") && strContains s.simulation_output f) = true ∨
        strContains (strLower s.simulation_output) "timeout" = true)) ∧
    (check_simulation_results_node mr s ≠ Route.fix_testbench →
      check_simulation_results_node mr s = Route.fix_design) := by
  have key : check_simulation_results_node mr s =
      (if is_tb_error s.simulation_output (s.testbench_code.map Prod.fst)
       then Route.fix_testbench else Route.fix_design) := by
    unfold check_simulation_results_node
    rw [if_neg h1, if_neg (not_le.mpr h2)]
  rw [key]
  by_cases h : is_tb_error s.simulation_output (s.testbench_code.map Prod.fst)
  · rw [if_pos h]
    unfold is_tb_error at h
    rw [Bool.or_eq_true] at h
    exact ⟨⟨fun _ => h, fun _ => rfl⟩, fun hne => absurd rfl hne⟩
  · rw [if_neg h]
    unfold is_tb_error at h
    rw [Bool.or_eq_true] at h
    push_neg at h
    constructor
    · constructor
      · intro hEq
        exact absurd hEq (by simp)
      · intro hor
        rcases hor with ha | hb
        · exact absurd ha (by simpa using h.1)
        · exact absurd hb (by simpa using h.2)
    · intro _
      rfl

/-- Witness for `C6_classifier` at concrete inputs. -/
theorem C6_classifier_witness :
    (check_simulation_results_node 10 sTb = Route.fix_testbench ↔
      ((sTb.testbench_code.map Prod.fst).any
          (fun f => (f != "") && strContains sTb.simulation_output f) = true ∨
        strContains (strLower sTb.simulation_output) "timeout" = true)) ∧
    (check_simulation_results_node 10 sTb ≠ Route.fix_testbench →
      check_simulation_results_node 10 sTb = Route.fix_design) :=
  C6_classifier 10 sTb (by decide) (by decide)

/-- C7: for every run started with retry budget `0` whose first validation
fails, the router pass immediately after that validation terminates the
run with `BUDGET_EXCEEDED`: no correction branch is ever taken and the
change log stays exactly as it was (empty for a fresh run). -/
theorem C7_budget_zero (sims : Nat → SimResult)
    (tbs : Nat → Option (List (String × String))) (mods : Nat → String)
    (n : Nat) (s : GraphState) (_h0 : s.error_count = 0)
    (hf : strContains (simOutputOf (sims 0)) "ERROR" = true) :
    (runLoop 0 sims tbs mods (n + 1) 0 s).outcome = Outcome.budget_exceeded ∧
    countCorrections (runLoop 0 sims tbs mods (n + 1) 0 s).routes = 0 ∧
    changeLogCount (runLoop 0 sims tbs mods (n + 1) 0 s).final.log =
      changeLogCount s.log := by
  have hne : (simulator_node (sims 0) s).simulation_output ≠ "" := by
    rw [simulator_output, if_pos hf]
    exact contains_ERROR_ne_empty _ hf
  have hr := router_budget 0 _ hne (Nat.zero_le _)
  rw [runLoop_step_end 0 sims tbs mods n 0 s hr]
  exact ⟨rfl, countCorrections_end, simulator_changeLog _ _⟩

/-- Witness for `C7_budget_zero` at concrete inputs. -/
theorem C7_budget_zero_witness :
    (runLoop 0 (fun _ => SimResult.procError true "syntax ERROR" "")
      (fun _ => some [("z_tb.v", "z")]) (fun _ => "p") (2 + 1) 0 s0).outcome
        = Outcome.budget_exceeded ∧
    countCorrections (runLoop 0 (fun _ => SimResult.procError true "syntax ERROR" "")
      (fun _ => some [("z_tb.v", "z")]) (fun _ => "p") (2 + 1) 0 s0).routes = 0 ∧
    changeLogCount (runLoop 0 (fun _ => SimResult.procError true "syntax ERROR" "")
      (fun _ => some [("z_tb.v", "z")]) (fun _ => "p") (2 + 1) 0 s0).final.log =
      changeLogCount s0.log :=
  C7_budget_zero _ _ _ 2 s0 rfl (by decide)

/-- C8: the testbench (companion) corrector never touches any
non-implicated artifact: whatever the external generator returns, the
decomposed design files — and the query, generation and top-module name —
are byte-for-byte those of the incoming state. -/
theorem C8_testbench_corrector_frame
    (resp : Option (List (String × String))) (s : GraphState) :
    (testbench_corrector_node resp s).decomposed_files = s.decomposed_files ∧
    (testbench_corrector_node resp s).top_module_name = s.top_module_name ∧
    (testbench_corrector_node resp s).generation = s.generation ∧
    (testbench_corrector_node resp s).query = s.query := by
  unfold testbench_corrector_node
  rcases resp with _ | (_ | ⟨⟨f, c⟩, rest⟩) <;> exact ⟨rfl, rfl, rfl, rfl⟩

/-- C9: on a malformed or unparsable generator response the testbench
corrector keeps the original testbench dict unchanged and records the
failure explicitly in the log (it is a total function — the run continues
instead of crashing); likewise, when the module corrector cannot identify
a faulty file it leaves every design file unchanged and records a
warning. -/
theorem C9_malformed_response_is_noop :
    (∀ (s : GraphState) (resp : Option (List (String × String))),
      resp = none ∨ resp = some [] →
      (testbench_corrector_node resp s).testbench_code = s.testbench_code ∧
      "❌ Failed to generate valid corrected testbench JSON." ∈
        (testbench_corrector_node resp s).log) ∧
    (∀ (s : GraphState) (mresp : String),
      (s.decomposed_files.map Prod.fst).find?
          (fun f => strContains s.simulation_output f) = none →
      (module_corrector_node mresp s).decomposed_files = s.decomposed_files ∧
      "⚠️ Could not identify a specific faulty module from the error log. No correction applied."
        ∈ (module_corrector_node mresp s).log) := by
  constructor
  · intro s resp hresp
    rcases hresp with rfl | rfl
    · refine ⟨rfl, ?_⟩
      show "❌ Failed to generate valid corrected testbench JSON." ∈
        (s.log ++ ["\n--- AGENT: Testbench Corrector ---",
          "♻️ Attempting to fix previous testbench error..."]) ++
          ["❌ Failed to generate valid corrected testbench JSON."]
      simp
    · refine ⟨rfl, ?_⟩
      show "❌ Failed to generate valid corrected testbench JSON." ∈
        (s.log ++ ["\n--- AGENT: Testbench Corrector ---",
          "♻️ Attempting to fix previous testbench error..."]) ++
          ["❌ Failed to generate valid corrected testbench JSON."]
      simp
  · intro s mresp hfind
    unfold module_corrector_node
    rw [hfind]
    refine ⟨rfl, ?_⟩
    show _ ∈ s.log ++ _ ++ _
    simp

/-- Witness for `C9_malformed_response_is_noop` at concrete inputs. -/
theorem C9_malformed_response_witness :
    (testbench_corrector_node none s0).testbench_code = s0.testbench_code ∧
    "❌ Failed to generate valid corrected testbench JSON." ∈
      (testbench_corrector_node none s0).log ∧
    (module_corrector_node "not verilog" s0).decomposed_files =
      s0.decomposed_files ∧
    "⚠️ Could not identify a specific faulty module from the error log. No correction applied."
      ∈ (module_corrector_node "not verilog" s0).log :=
  ⟨(C9_malformed_response_is_noop.1 s0 none (Or.inl rfl)).1,
   (C9_malformed_response_is_noop.1 s0 none (Or.inl rfl)).2,
   (C9_malformed_response_is_noop.2 s0 "not verilog" (by decide)).1,
   (C9_malformed_response_is_noop.2 s0 "not verilog" (by decide)).2⟩

/-- C10: a validation attempt is judged successful exactly when `"ERROR"`
does not occur in the simulator stage's output: then the stored validation
log is reset to `""` and the error counter is unchanged; otherwise the
output is kept as the validation log and the counter increases by exactly
one.  In particular a simulation that completes normally (exit code `0`)
but prints `"ERROR"` anywhere in its stdout counts as a failed validation
and consumes a retry. -/
theorem C10_error_marker_decides_validation (res : SimResult)
    (s : GraphState) :
    (strContains (simOutputOf res) "ERROR" = false →
      (simulator_node res s).simulation_output = "" ∧
      (simulator_node res s).error_count = s.error_count) ∧
    (strContains (simOutputOf res) "ERROR" = true →
      (simulator_node res s).simulation_output = simOutputOf res ∧
      (simulator_node res s).error_count = s.error_count + 1) ∧
    (∀ out : String, strContains out "ERROR" = true →
      (simulator_node (SimResult.ok out) s).simulation_output = out ∧
      (simulator_node (SimResult.ok out) s).error_count = s.error_count + 1) := by
  refine ⟨?_, ?_, ?_⟩
  · intro h
    constructor
    · rw [simulator_output, if_neg (by simp [h])]
    · rw [simulator_error_count, if_neg (by simp [h])]
  · intro h
    constructor
    · rw [simulator_output, if_pos h]
    · rw [simulator_error_count, if_pos h]
  · intro out h
    constructor
    · rw [simulator_output]
      exact if_pos h
    · rw [simulator_error_count]
      exact if_pos h

/-- Witness for `C10_error_marker_decides_validation` at concrete inputs. -/
theorem C10_error_marker_witness :
    ((simulator_node (SimResult.ok "All good") s0).simulation_output = "" ∧
      (simulator_node (SimResult.ok "All good") s0).error_count =
        s0.error_count) ∧
    ((simulator_node (SimResult.ok "Detected ERROR at time 5") s0).simulation_output
        = "Detected ERROR at time 5" ∧
      (simulator_node (SimResult.ok "Detected ERROR at time 5") s0).error_count
        = s0.error_count + 1) :=
  ⟨(C10_error_marker_decides_validation (SimResult.ok "All good") s0).1
      (by decide),
   (C10_error_marker_decides_validation (SimResult.ok "Detected ERROR at time 5")
      s0).2.2 "Detected ERROR at time 5" (by decide)⟩

end Chipster
